import Mathlib

/-!
Verification of the Lottie cache demo server (`src/server/index.js`).

The server is a small Express application holding four pieces of mutable
in-process state (`currentVersion`, `mode`, `lastModified`, `requestCount`)
and exposing six endpoints.  We embed each request handler as a pure Lean
function from the current `ServerState` (and the request data the handler
reads) to a response value paired with the successor state.

Platform builtins that the handlers call — the filesystem read of the
static asset files (`loadLottie`), Node's `crypto` SHA-256 hex digest,
and JavaScript `Date` rendering (`toUTCString` / `toISOString`) — are not
code of this repository; they are collected in an `Env` record over which
every theorem quantifies.  All branching, header, body and state-update
logic is translated line by line from `index.js`.  `console.log` calls are
omitted: they touch neither the response nor the state.

JavaScript `Date` values are represented by their millisecond epoch value
(`getTime()`), an integer.  Request headers and JSON body fields that may
be absent are `Option String`; JavaScript truthiness of a string
(`if (s)` / `s && …`) is `s ≠ ""` once the `undefined` case is split off
into `Option.none`.
-/

namespace Server

/-- Mutable server state, `index.js` lines 10–13. -/
structure ServerState where
  currentVersion : Nat
  mode : String
  lastModified : Int
  requestCount : Nat
deriving Repr, DecidableEq

/-- Millisecond epoch value of `new Date("2025-12-01T00:00:00Z")`, the
fixed default for `lastModified`. -/
def initialLastModified : Int := 1764547200000

/-- Process-start state, `index.js` lines 10–13: version 1, mode A,
the fixed epoch and a zero request counter. -/
def initialState : ServerState :=
  { currentVersion := 1, mode := "A",
    lastModified := initialLastModified, requestCount := 0 }

/-- External platform facilities used by the handlers.  These are Node /
JavaScript builtins and static asset files, not code of this repository,
so the embedding abstracts over them. -/
structure Env where
  loadLottie : Nat → String
  sha256hex : String → String
  toUTCString : Int → String
  toISOString : Int → String

/-- Function `computeETag` (`index.js` lines 25–28): quote-wrapped hex SHA-256
digest of the body. -/
def computeETag (env : Env) (body : String) : String :=
  "\"" ++ env.sha256hex body ++ "\""

/-- JavaScript truthiness of a string value: every string except the
empty one is truthy. -/
def jsTruthy (s : String) : Bool := s ≠ ""

/-- Response of `GET /lottie.json`: status, body (empty on 304) and the
headers the handler sets. -/
structure LottieResponse where
  status : Nat
  body : String
  etag : Option String
  lastModified : Option String
  cacheControl : Option String
  contentType : Option String
deriving Repr, DecidableEq

/-- Handler of `GET /lottie.json` (`index.js` lines 33–67).  Takes the
optional `If-None-Match` and `If-Modified-Since` request headers; the
latter is read only for logging and never influences the result, which
the embedding makes literal by ignoring it. -/
def getLottie (env : Env) (st : ServerState)
    (ifNoneMatch : Option String) (_ifModifiedSince : Option String) :
    LottieResponse × ServerState :=
  let st' := { st with requestCount := st.requestCount + 1 }
  let body := env.loadLottie st.currentVersion
  let etag := computeETag env body
  let lastMod := env.toUTCString st.lastModified
  let cacheControl : Option String :=
    if st.mode = "B" then some "public, max-age=30" else none
  let isMatch : Bool :=
    match ifNoneMatch with
    | some clientETag => jsTruthy clientETag && clientETag == etag
    | none => false
  if isMatch then
    ({ status := 304, body := "", etag := some etag,
       lastModified := some lastMod, cacheControl := cacheControl,
       contentType := none }, st')
  else
    ({ status := 200, body := body, etag := some etag,
       lastModified := some lastMod, cacheControl := cacheControl,
       contentType := some "application/json" }, st')

/-- Response of `POST /flip`: the JSON `{version}` payload. -/
structure FlipResponse where
  version : Nat
deriving Repr, DecidableEq

/-- Handler of `POST /flip` (`index.js` lines 70–74). -/
def flip (st : ServerState) : FlipResponse × ServerState :=
  let v := if st.currentVersion = 1 then 2 else 1
  ({ version := v }, { st with currentVersion := v })

/-- Response of `POST /mode`: either `{mode}` with status 200 or a 400
`{error}` payload. -/
structure ModeResponse where
  status : Nat
  mode : Option String
  error : Option String
deriving Repr, DecidableEq

/-- Handler of `POST /mode` (`index.js` lines 77–85).  The body field
`mode` may be absent (`none`). -/
def setMode (st : ServerState) (newMode : Option String) :
    ModeResponse × ServerState :=
  if newMode = some "A" ∨ newMode = some "B" then
    let m := newMode.getD ""
    ({ status := 200, mode := some m, error := none }, { st with mode := m })
  else
    ({ status := 400, mode := none,
       error := some "mode must be \x27A\x27 or \x27B\x27" }, st)

/-- Response of `POST /lastModified`: either `{lastModified}` with
status 200 or a 400 `{error}` payload. -/
structure LastModifiedResponse where
  status : Nat
  lastModified : Option String
  error : Option String
deriving Repr, DecidableEq

/-- Handler of `POST /lastModified` (`index.js` lines 88–100).
`parse` models the JavaScript `new Date(iso)` / `isNaN(date.getTime())`
pair: `none` when the resulting date is invalid, otherwise the parsed
millisecond epoch value.  The `!iso` guard fires when the body field is
absent or the empty string (the only falsy string). -/
def setLastModified (env : Env) (parse : String → Option Int)
    (st : ServerState) (iso : Option String) :
    LastModifiedResponse × ServerState :=
  match iso with
  | none =>
      ({ status := 400, lastModified := none,
         error := some "iso field required" }, st)
  | some s =>
      if jsTruthy s then
        match parse s with
        | none =>
            ({ status := 400, lastModified := none,
               error := some "invalid ISO date" }, st)
        | some t =>
            ({ status := 200, lastModified := some (env.toISOString t),
               error := none }, { st with lastModified := t })
      else
        ({ status := 400, lastModified := none,
           error := some "iso field required" }, st)

/-- Response of `GET /state`: the JSON snapshot the endpoint returns. -/
structure StateResponse where
  mode : String
  version : Nat
  lastModified : String
  etag : String
  requestCount : Nat
  cacheControl : Option String
deriving Repr, DecidableEq

/-- Handler of `GET /state` (`index.js` lines 103–114).  Read-only: the
state is not changed, so only the response is returned. -/
def getState (env : Env) (st : ServerState) : StateResponse :=
  let body := env.loadLottie st.currentVersion
  { mode := st.mode, version := st.currentVersion,
    lastModified := env.toISOString st.lastModified,
    etag := computeETag env body,
    requestCount := st.requestCount,
    cacheControl := if st.mode = "B" then some "public, max-age=30" else none }

/-- Response of `POST /reset`: the JSON `{ok:true}` payload. -/
structure ResetResponse where
  ok : Bool
deriving Repr, DecidableEq

/-- Handler of `POST /reset` (`index.js` lines 117–124). -/
def reset (_st : ServerState) : ResetResponse × ServerState :=
  ({ ok := true }, initialState)

/-- States reachable from the process-start state by any sequence of
requests, over any environment, request data and date parser. -/
inductive Reachable : ServerState → Prop where
  | init : Reachable initialState
  | getLottie (env inm ims) {s} : Reachable s →
      Reachable (getLottie env s inm ims).2
  | flip {s} : Reachable s → Reachable (flip s).2
  | setMode (m) {s} : Reachable s → Reachable (setMode s m).2
  | setLastModified (env parse iso) {s} : Reachable s →
      Reachable (setLastModified env parse s iso).2
  | reset {s} : Reachable s → Reachable (reset s).2

/-- Concrete environment used to evaluate the handlers on closed inputs:
distinct payloads per version, a toy digest function, injective date
renderings. -/
def testEnv : Env :=
  { loadLottie := fun v => "payload" ++ toString v,
    sha256hex := fun s => "h" ++ toString s.length,
    toUTCString := fun t => "U" ++ toString t,
    toISOString := fun t => "I" ++ toString t }

/-- Concrete date parser used to evaluate `setLastModified` on closed
inputs: accepts exactly one string. -/
def testParse : String → Option Int :=
  fun s => if s = "2025-12-15" then some 1765756800000 else none

/-! Helper lemmas. -/

/-- The computed ETag is quote-wrapped, hence never the empty string; this
is what makes the `clientETag &&` truthiness guard in the handler
redundant on the matching side. -/
lemma computeETag_ne_empty (env : Env) (b : String) : computeETag env b ≠ "" := by
  intro h
  have hlen := congrArg String.length h
  simp [computeETag, String.length_append] at hlen
  exact absurd hlen.1.1 (by decide)

/-- The `GET /lottie.json` handler never changes the active version. -/
lemma getLottie_version (env : Env) (s : ServerState)
    (inm ims : Option String) :
    (getLottie env s inm ims).2.currentVersion = s.currentVersion := by
  unfold getLottie
  dsimp only
  split <;> rfl

/-- The `POST /mode` handler never changes the active version. -/
lemma setMode_version (s : ServerState) (m : Option String) :
    (setMode s m).2.currentVersion = s.currentVersion := by
  unfold setMode
  split <;> rfl

/-- The `POST /lastModified` handler never changes the active version. -/
lemma setLastModified_version (env : Env) (parse : String → Option Int)
    (s : ServerState) (iso : Option String) :
    (setLastModified env parse s iso).2.currentVersion = s.currentVersion := by
  unfold setLastModified
  rcases iso with _ | iso
  · rfl
  · dsimp only
    split
    · split <;> rfl
    · rfl

/-- Invariant from the spec's data model: the active variant of every
reachable state is 1 or 2. -/
lemma reachable_version {st : ServerState} (h : Reachable st) :
    st.currentVersion = 1 ∨ st.currentVersion = 2 := by
  induction h with
  | init => exact Or.inl rfl
  | getLottie env inm ims _ ih => rwa [getLottie_version]
  | flip _ ih =>
      unfold flip
      dsimp only
      rcases ih with h1 | h2
      · rw [h1]; exact Or.inr rfl
      · rw [h2]; exact Or.inl rfl
  | setMode m _ ih => rwa [setMode_version]
  | setLastModified env parse iso _ ih => rwa [setLastModified_version]
  | reset _ _ => exact Or.inl rfl

/-! Claim theorems. -/

/-- C1: for every server state and every client-supplied `If-None-Match`
value `f`, `GET /lottie.json` returns 304 with empty body exactly when
`f` string-equals the freshly computed quoted-hex SHA-256 fingerprint of
the currently active payload, and returns 200 with the full payload body
otherwise; in both cases the response carries the current `ETag` and
`Last-Modified` headers. -/
theorem getLottie_conditional (env : Env) (st : ServerState)
    (f : String) (ims : Option String) :
    (if f = computeETag env (env.loadLottie st.currentVersion) then
       (getLottie env st (some f) ims).1.status = 304 ∧
       (getLottie env st (some f) ims).1.body = ""
     else
       (getLottie env st (some f) ims).1.status = 200 ∧
       (getLottie env st (some f) ims).1.body =
         env.loadLottie st.currentVersion) ∧
    (getLottie env st (some f) ims).1.etag =
      some (computeETag env (env.loadLottie st.currentVersion)) ∧
    (getLottie env st (some f) ims).1.lastModified =
      some (env.toUTCString st.lastModified) := by
  by_cases hf : f = computeETag env (env.loadLottie st.currentVersion)
  · have hne : f ≠ "" := by rw [hf]; exact computeETag_ne_empty env _
    simp [getLottie, jsTruthy, hf, hne, computeETag_ne_empty]
  · simp [getLottie, jsTruthy, hf]

/-- C2 counterexample: a 304 response that does increment the request
counter.  On the process-start state with the matching `If-None-Match`
value the handler answers 304 yet bumps `requestCount` from 0 to 1,
refuting the claim that the counter is untouched on the 304 path. -/
theorem getLottie_304_increments_counter :
    (getLottie testEnv initialState (some "\"h8\"") none).1.status = 304 ∧
    initialState.requestCount = 0 ∧
    (getLottie testEnv initialState (some "\"h8\"") none).2.requestCount = 1 := by
  refine ⟨?_, rfl, ?_⟩ <;> decide

/-- C2 amended: `GET /lottie.json` increments the request counter on
every request — on 304 responses just as on full 200 responses — because
the increment happens before the conditional check. -/
theorem getLottie_always_increments (env : Env) (st : ServerState)
    (inm ims : Option String) :
    (getLottie env st inm ims).2.requestCount = st.requestCount + 1 := by
  unfold getLottie
  dsimp only
  split <;> rfl

/-- C3 counterexample: in mode B the emitted `Cache-Control` value is the
literal string `public, max-age=30`; it does not carry the
`must-revalidate` token the claim states. -/
theorem modeB_cacheControl_value :
    (getLottie testEnv { initialState with mode := "B" } none none).1.cacheControl
      = some "public, max-age=30" ∧
    some "public, max-age=30" ≠ some "public, max-age=30, must-revalidate" := by
  refine ⟨rfl, ?_⟩
  decide

/-- C3 amended: when `cachingMode` is B, every `GET /lottie.json`
response (200 or 304) emits the `Cache-Control` header with the value
`public, max-age=30`. -/
theorem modeB_emits_cacheControl (env : Env) (st : ServerState)
    (inm ims : Option String) (hB : st.mode = "B") :
    (getLottie env st inm ims).1.cacheControl = some "public, max-age=30" := by
  unfold getLottie
  dsimp only
  split <;> simp [hB]

/-- C3 amended, witness: the mode-B process-start state evaluated on a
concrete request. -/
theorem modeB_emits_cacheControl_witness :
    (getLottie testEnv { initialState with mode := "B" } none none).1.cacheControl
      = some "public, max-age=30" :=
  modeB_emits_cacheControl testEnv { initialState with mode := "B" } none none rfl

/-- C4: every `GET /lottie.json` response, whether 200 or 304, carries
the `Cache-Control` header exactly when the mode is B (so in mode A it is
absent), and the `cacheControl` field of `GET /state` is likewise the
mode-B string in mode B and null otherwise — in particular null in
mode A. -/
theorem cacheControl_presence (env : Env) (st : ServerState)
    (inm ims : Option String) :
    (getLottie env st inm ims).1.cacheControl =
      (if st.mode = "B" then some "public, max-age=30" else none) ∧
    (getState env st).cacheControl =
      (if st.mode = "B" then some "public, max-age=30" else none) := by
  constructor
  · unfold getLottie
    dsimp only
    split <;> rfl
  · rfl

/-- C5: `POST /flip` toggles the active variant 1↔2 (and reports the new
variant), it never fails — the handler is total and the embedding returns
a response from every state — and on every reachable state it is an
involution: flipping twice restores the original active variant. -/
theorem flip_toggles_involution (st : ServerState) (h : Reachable st) :
    ((st.currentVersion = 1 ∧ (flip st).2.currentVersion = 2) ∨
     (st.currentVersion = 2 ∧ (flip st).2.currentVersion = 1)) ∧
    (flip (flip st).2).2.currentVersion = st.currentVersion ∧
    (flip st).1.version = (flip st).2.currentVersion := by
  rcases reachable_version h with h1 | h2
  · simp [flip, h1]
  · simp [flip, h2]

/-- C5 witness: the process-start state, reachable by definition. -/
theorem flip_toggles_involution_witness :
    ((initialState.currentVersion = 1 ∧
        (flip initialState).2.currentVersion = 2) ∨
     (initialState.currentVersion = 2 ∧
        (flip initialState).2.currentVersion = 1)) ∧
    (flip (flip initialState).2).2.currentVersion =
      initialState.currentVersion ∧
    (flip initialState).1.version = (flip initialState).2.currentVersion :=
  flip_toggles_involution initialState Reachable.init

/-- C6: `POST /mode` accepts exactly the values `"A"` and `"B"`: on a
valid value it stores the mode, echoes it with status 200 and changes
nothing else; on every other input (including a missing field) it answers
400 with an error message and leaves the whole state unchanged. -/
theorem setMode_contract (st : ServerState) (m : Option String) :
    if m = some "A" ∨ m = some "B" then
      (setMode st m).1.status = 200 ∧
      (setMode st m).1.mode = m ∧
      (setMode st m).2 = { st with mode := m.getD "" }
    else
      (setMode st m).1.status = 400 ∧
      (setMode st m).1.error = some "mode must be \x27A\x27 or \x27B\x27" ∧
      (setMode st m).2 = st := by
  by_cases hm : m = some "A" ∨ m = some "B"
  · rw [if_pos hm]
    rcases hm with rfl | rfl <;> simp [setMode]
  · rw [if_neg hm]
    simp [setMode, hm]

/-- C7: `POST /lastModified` on a supplied string input: when the date
parser rejects the input (and for the empty string, which no ISO-8601
parser accepts), the handler answers 400 and leaves the whole state —
in particular `lastModified` — unchanged; when the parser yields a
timestamp, the handler replaces `lastModified` wholesale with it and
returns the stored timestamp rendered by `toISOString`, with status
200. -/
theorem setLastModified_contract (env : Env) (parse : String → Option Int)
    (st : ServerState) (s : String) :
    ((s = "" ∨ parse s = none) →
       (setLastModified env parse st (some s)).1.status = 400 ∧
       (setLastModified env parse st (some s)).2 = st) ∧
    (∀ t : Int, s ≠ "" → parse s = some t →
       (setLastModified env parse st (some s)).1.status = 200 ∧
       (setLastModified env parse st (some s)).1.lastModified =
         some (env.toISOString t) ∧
       (setLastModified env parse st (some s)).2 =
         { st with lastModified := t }) := by
  constructor
  · rintro (rfl | hp)
    · simp [setLastModified, jsTruthy]
    · by_cases hs : s = ""
      · subst hs; simp [setLastModified, jsTruthy]
      · simp [setLastModified, jsTruthy, hs, hp]
  · intro t hs hp
    simp [setLastModified, jsTruthy, hs, hp]

/-- C7 witness: the concrete parser rejects `"nope"` (400, state kept)
and accepts `"2025-12-15"` (stored wholesale and echoed). -/
theorem setLastModified_contract_witness :
    ((setLastModified testEnv testParse initialState (some "nope")).1.status = 400 ∧
     (setLastModified testEnv testParse initialState (some "nope")).2 =
       initialState) ∧
    ((setLastModified testEnv testParse initialState
        (some "2025-12-15")).1.status = 200 ∧
     (setLastModified testEnv testParse initialState
        (some "2025-12-15")).1.lastModified =
       some (testEnv.toISOString 1765756800000) ∧
     (setLastModified testEnv testParse initialState
        (some "2025-12-15")).2 =
       { initialState with lastModified := 1765756800000 }) :=
  ⟨(setLastModified_contract testEnv testParse initialState "nope").1
      (Or.inr (by decide)),
   (setLastModified_contract testEnv testParse initialState "2025-12-15").2
      1765756800000 (by decide) (by decide)⟩

/-- C8: `POST /reset` succeeds from every state (not just reachable
ones), answers `{ok:true}`, restores every field to the process-start
defaults, and an immediately following `GET /state` reports exactly those
defaults: mode A, version 1, the fixed epoch, a zero counter, a null
cache-control field and the fingerprint of the version-1 payload. -/
theorem reset_restores_defaults (env : Env) (st : ServerState) :
    (reset st).1.ok = true ∧
    (reset st).2 = initialState ∧
    getState env (reset st).2 =
      { mode := "A", version := 1,
        lastModified := env.toISOString initialLastModified,
        etag := computeETag env (env.loadLottie 1),
        requestCount := 0, cacheControl := none } := by
  refine ⟨rfl, rfl, ?_⟩
  simp [getState, reset, initialState]

/-- C9: the `If-Modified-Since` request header is never evaluated: two
`GET /lottie.json` requests identical but for that header produce the
same response — status, body and all headers — and the same post-request
server state.  The embedding makes this definitional: the handler ignores
the argument. -/
theorem ifModifiedSince_ignored (env : Env) (st : ServerState)
    (inm ims1 ims2 : Option String) :
    getLottie env st inm ims1 = getLottie env st inm ims2 := rfl

/-- C10: `POST /lastModified` with a missing `iso` field or an empty
string answers 400 with the message `iso field required` — a different
message from the unparseable-date error — and leaves the whole server
state unchanged, whatever the date parser. -/
theorem setLastModified_missing_iso (env : Env)
    (parse : String → Option Int) (st : ServerState) :
    ((setLastModified env parse st none).1.status = 400 ∧
     (setLastModified env parse st none).1.error = some "iso field required" ∧
     (setLastModified env parse st none).2 = st) ∧
    ((setLastModified env parse st (some "")).1.status = 400 ∧
     (setLastModified env parse st (some "")).1.error =
       some "iso field required" ∧
     (setLastModified env parse st (some "")).2 = st) ∧
    (setLastModified env parse st none).1.error ≠ some "invalid ISO date" := by
  refine ⟨⟨rfl, rfl, rfl⟩, ⟨?_, ?_, ?_⟩, ?_⟩
  · simp [setLastModified, jsTruthy]
  · simp [setLastModified, jsTruthy]
  · simp [setLastModified, jsTruthy]
  · simp [setLastModified]

end Server
